import Mathlib

/-!
Verification of the Synapse backend (context-isolated ingestion and
retrieval engine) against its specification.

The development shallowly embeds the Python backend (`backend/main.py`,
`backend/vector_store_client.py`): request handlers become Lean functions,
the Chroma collection becomes an explicit list of records threaded through
each operation, and the external collaborators (embedding provider,
completion provider, Slack/GitHub readers, LlamaIndex index build) become
function or data parameters carrying their observable outputs.  Components
of the system that the repository delegates to external libraries (the
chunker, the exact-match metadata filter of the vector index, the answer
synthesizer) are modelled from the specification's contracts and are marked
as such in their doc comments.
-/

namespace Synapse

/-- Metadata of a stored record or transient document: an association list
from string keys to optional string values.  The `Option` on the value
models Python `None` stored as a metadata value (as `sync_slack` does with
a missing `contextId`, `main.py:327`). -/
abbrev Meta := List (String × Option String)

/-- Split a character list on a separator character, keeping empty pieces,
with Python `str.split(sep)` semantics. -/
def splitChars (sep : Char) : List Char → List (List Char)
  | [] => [[]]
  | c :: cs =>
      let r := splitChars sep cs
      if c == sep then [] :: r
      else
        match r with
        | [] => [[c]]
        | w :: ws => (c :: w) :: ws

/-- Strip leading and trailing whitespace, with Python `str.strip()`
semantics. -/
def trimStr (s : String) : String :=
  String.mk (((s.toList.dropWhile Char.isWhitespace).reverse.dropWhile Char.isWhitespace).reverse)

/-- Lower-case a string character-wise, with Python `str.lower()`
semantics for ASCII text. -/
def lowerStr (s : String) : String :=
  String.mk (s.toList.map Char.toLower)

/-- Join strings with a separator, with Python `sep.join(xs)` semantics. -/
def joinWith (sep : String) : List String → String
  | [] => ""
  | x :: xs =>
      match xs with
      | [] => x
      | _ :: _ => x ++ sep ++ joinWith sep xs

/-- Transient document as produced by a source reader
(`SimpleDirectoryReader`, `SlackReader`, `GithubRepositoryReader`):
raw text plus metadata (`main.py:162`, `main.py:300`). -/
structure Doc where
  text : String
  metadata : Meta
deriving DecidableEq, Repr

/-- Stored unit of retrieval in the Chroma collection
`synapse_knowledge_base` (`vector_store_client.py:42`): an id, the chunk
text and its metadata.  The embedding vector itself is abstracted away;
similarity ranking enters the model as an explicit scoring parameter. -/
structure Record where
  id : Nat
  text : String
  metadata : Meta
deriving DecidableEq, Repr

/-- Store one key/value pair in a metadata dictionary, overwriting any
earlier binding of the same key (Python `dict.update` semantics for a
single key). -/
def metaSet (m : Meta) (k : String) (v : Option String) : Meta :=
  (k, v) :: m.filter (fun e => e.1 ≠ k)

/-- Update a metadata dictionary with a list of key/value pairs, as
`doc.metadata.update({...})` does (`main.py:170`, `main.py:324`,
`main.py:418`). -/
def metaUpdate (m : Meta) (upds : Meta) : Meta :=
  upds.foldl (fun acc kv => metaSet acc kv.1 kv.2) m

/-- Look up a metadata key, first binding wins. -/
def metaGet (m : Meta) (k : String) : Option (Option String) :=
  (m.find? (fun e => e.1 == k)).map (fun e => e.2)

/-- Exact-match conjunction over metadata fields.  Modelled from the spec:
the vector index is an abstract store whose `filter` argument "is an
exact-match conjunction over metadata fields" (spec section 4.3); the
repository reaches it through Chroma's `where=` argument
(`vector_store_client.py:126`) and LlamaIndex `MetadataFilters`
(`main.py:481`), whose implementations are outside the repository. -/
def matchesWhere (w : List (String × String)) (r : Record) : Bool :=
  w.all (fun kv => metaGet r.metadata kv.1 == some (some kv.2))

/-- Insert a record into a list that is ordered by descending score,
keeping the order.  Ties go to the earlier-inserted record, matching the
deterministic tie-break of spec section 4.3. -/
def insertByScore (score : Record → Int) (r : Record) : List Record → List Record
  | [] => [r]
  | x :: xs =>
      if score x < score r then r :: x :: xs
      else x :: insertByScore score r xs

/-- Order records by descending similarity score.  The score function is a
parameter: the embedding provider's vectors are external
(`custom_openai_embedding.py`), and only the ranking they induce is
observable here. -/
def rankByScore (score : Record → Int) : List Record → List Record
  | [] => []
  | x :: xs => insertByScore score x (rankByScore score xs)

/-- Filtered top-k similarity search of `VectorStoreClient.search_documents`
(`vector_store_client.py:108`): the collection is queried with a metadata
filter and a result count; only records matching the filter are ranked and
the first `n` are returned. -/
def searchDocuments (score : Record → Int) (store : List Record)
    (n : Nat) (w : List (String × String)) : List Record :=
  (rankByScore score (store.filter (matchesWhere w))).take n

theorem mem_insertByScore {score : Record → Int} {r x : Record}
    {l : List Record} (h : x ∈ insertByScore score r l) : x = r ∨ x ∈ l := by
  induction l with
  | nil =>
      simp [insertByScore] at h
      exact Or.inl h
  | cons y ys ih =>
      simp only [insertByScore] at h
      by_cases hc : score y < score r
      · simp [hc] at h
        rcases h with h | h | h
        · exact Or.inl h
        · exact Or.inr (by simp [h])
        · exact Or.inr (by simp [h])
      · simp [hc] at h
        rcases h with h | h
        · exact Or.inr (by simp [h])
        · rcases ih h with h' | h'
          · exact Or.inl h'
          · exact Or.inr (by simp [h'])

theorem mem_rankByScore {score : Record → Int} {x : Record}
    {l : List Record} (h : x ∈ rankByScore score l) : x ∈ l := by
  induction l with
  | nil => simp [rankByScore] at h
  | cons y ys ih =>
      simp only [rankByScore] at h
      rcases mem_insertByScore h with h' | h'
      · simp [h']
      · simp [ih h']

theorem mem_searchDocuments {score : Record → Int} {store : List Record}
    {n : Nat} {w : List (String × String)} {x : Record}
    (h : x ∈ searchDocuments score store n w) :
    x ∈ store ∧ matchesWhere w x = true := by
  have hx : x ∈ rankByScore score (store.filter (matchesWhere w)) :=
    List.take_subset _ _ h
  have hx' : x ∈ store.filter (matchesWhere w) := mem_rankByScore hx
  exact ⟨List.mem_of_mem_filter hx', List.of_mem_filter hx'⟩

/-- Request body of `POST /api/query` (`QueryRequest`, `main.py:96`). -/
structure QueryRequest where
  question : String
  contextId : String
deriving DecidableEq, Repr

/-- Source entry of the query response (`main.py:502`): node id, content
and metadata of a retrieved record. -/
structure SourceEntry where
  id : Nat
  content : String
  metadata : Meta
deriving DecidableEq, Repr

/-- Response body of `POST /api/query` (`QueryResponse`, `main.py:100`). -/
structure QueryResponse where
  answer : String
  sources : List SourceEntry
deriving DecidableEq, Repr

/-- Retrieval step of `query_knowledge` (`main.py:474`–`491`): the query
engine is built over the shared collection with the metadata filter
`[MetadataFilter(key := contextId, value := request.contextId)]` and
returns the top-k records passing that filter. -/
def retrieveNodes (score : String → Record → Int) (store : List Record)
    (topK : Nat) (req : QueryRequest) : List Record :=
  searchDocuments (score req.question) store topK [("contextId", req.contextId)]

/-- Fixed answer used when retrieval yields nothing.  Modelled from the
spec: "a fixed 'insufficient information' answer" (spec section 4.6). -/
def insufficientInfoAnswer : String :=
  "The provided context does not contain sufficient information to answer this question."

/-- Grounded prompt of the answer synthesizer.  Modelled from the spec:
retrieved chunk texts are placed as context ahead of the question (spec
section 4.6); the concrete template lives in the LlamaIndex response
synthesizer, outside the repository. -/
def groundedPrompt (question : String) (nodes : List Record) : String :=
  joinWith "\n" (nodes.map (fun r => r.text)) ++ "\n" ++ question

/-- Answer synthesis step of the query pipeline.  Modelled from the spec:
"On empty RetrievalResult, synthesis short-circuits: returns a fixed
'insufficient information' answer with empty citations, skipping the
completion call entirely" (spec section 4.6).  The repository reaches this
step through the LlamaIndex query engine (`main.py:488`–`491`), whose
synthesizer is not part of the repository source.  The second component
counts completion (LLM) calls issued. -/
def synthesize (complete : String → String) (question : String)
    (nodes : List Record) : String × Nat :=
  match nodes with
  | [] => (insufficientInfoAnswer, 0)
  | _ :: _ => (complete (groundedPrompt question nodes), 1)

/-- Handler of `POST /api/query` (`query_knowledge`, `main.py:460`–`508`):
filtered retrieval, synthesis, then the response is assembled from the
answer and the source nodes' id/content/metadata.  Returns the response
paired with the number of completion calls issued. -/
def query_knowledge (score : String → Record → Int) (complete : String → String)
    (store : List Record) (topK : Nat) (req : QueryRequest) :
    QueryResponse × Nat :=
  let nodes := retrieveNodes score store topK req
  let syn := synthesize complete req.question nodes
  (⟨syn.1, nodes.map (fun r => ⟨r.id, r.text, r.metadata⟩)⟩, syn.2)

/-- Request body of `POST /api/query/transform` (`TransformRequest`,
`main.py:121`). -/
structure TransformRequest where
  question : String
  contextId : String
deriving DecidableEq, Repr

/-- Response body of `POST /api/query/transform` (`TransformResponse`,
`main.py:125`). -/
structure TransformResponse where
  transformed_question : String
deriving DecidableEq, Repr

/-- HTTP error raised by a handler (`HTTPException`): status code and
detail string. -/
structure HTTPError where
  status : Nat
  detail : String
deriving DecidableEq, Repr

/-- Handler of `POST /api/query/transform` (`transform_query`,
`main.py:555`–`589`).  The completion provider's outcome is a parameter:
either the rewritten text (`response.choices[0].message.content`, which the
handler strips) or the raised exception's message, in which case the
handler raises HTTP 500 with the exception text. -/
def transform_query (llm : String → Except String String)
    (req : TransformRequest) : Except HTTPError TransformResponse :=
  match llm req.question with
  | .ok content => .ok ⟨trimStr content⟩
  | .error e => .error ⟨500, "Failed to transform query: " ++ e⟩

/-- Modelled from the spec: the caller of the query-rewriting endpoint.
No code under `src/` calls `/api/query/transform` (the calling surface is
outside the backend source); per spec section 4.7, "callers fall back to
the original question text on error".  This definition gives the question
text the caller proceeds with. -/
def queryTextAfterRewrite (llm : String → Except String String)
    (req : TransformRequest) : String :=
  match transform_query llm req with
  | .ok r => r.transformed_question
  | .error _ => req.question

/-- Whitespace tokenization used by the modelled chunker. -/
def tokenize (text : String) : List String :=
  ((splitChars ' ' text.toList).filter (fun w => !w.isEmpty)).map String.mk

/-- Sliding token windows: each window takes up to `m` tokens and the next
window starts `step` tokens further; the last window may be shorter.  The
fuel argument makes the recursion structural. -/
def windows (m step : Nat) : Nat → List String → List (List String)
  | 0, _ => []
  | _ + 1, [] => []
  | fuel + 1, x :: xs =>
      (x :: xs).take m ::
        (if (x :: xs).length ≤ m then [] else windows m step fuel ((x :: xs).drop step))

/-- Modelled from the spec: the Chunker,
`split(text, maxTokens, overlapTokens) -> ordered sequence of chunk
strings` (spec section 4.1).  The repository delegates chunking to the
LlamaIndex `SentenceSplitter` inside `VectorStoreIndex.from_documents`
(`main.py:178`), which is not part of the repository source.  Windows
advance by `maxTokens - overlapTokens` tokens; empty text yields the empty
sequence. -/
def split (text : String) (maxTokens overlapTokens : Nat) : List String :=
  let toks := tokenize text
  (windows maxTokens (max 1 (maxTokens - overlapTokens)) (toks.length + 1) toks).map
    (fun ws => joinWith " " ws)

/-- Check whether `needle` occurs at the head of `hay`. -/
def charsMatchAt : List Char → List Char → Bool
  | _, [] => true
  | [], _ :: _ => false
  | a :: as, b :: bs => a == b && charsMatchAt as bs

/-- Check whether `needle` occurs anywhere in `hay`. -/
def charsHave : List Char → List Char → Bool
  | [], needle => needle.isEmpty
  | a :: as, needle => charsMatchAt (a :: as) needle || charsHave as needle

/-- Substring test, modelling Python's `needle in haystack` on strings. -/
def strHas (hay needle : String) : Bool :=
  charsHave hay.toList needle.toList

/-- Error classification of the generic `except Exception` branch of
`upload_document` (`main.py:210`–`240`): branches on substrings of the
exception's message; the final branch embeds the message itself in the
HTTP detail. -/
def upload_error_detail (msg : String) : HTTPError :=
  if strHas msg "OpenAI" || strHas msg "API" then
    ⟨503, "External AI service is temporarily unavailable. Please try again later."⟩
  else if strHas msg "ChromaDB" || strHas (lowerStr msg) "vector" then
    ⟨503, "Vector database is temporarily unavailable. Please try again later."⟩
  else if strHas (lowerStr msg) "embedding" then
    ⟨503, "Document embedding service is temporarily unavailable. Please try again later."⟩
  else
    ⟨500, "Failed to process file upload. Error: " ++ msg⟩

/-- Exception reaching the `except Exception` branch of `query_knowledge`
(`main.py:516`–`553`), classified as the handler does: OpenAI `APIError`,
`RateLimitError`, `APIConnectionError`, or any other exception carrying a
message. -/
inductive QueryException where
  | apiError (msg : String)
  | rateLimit
  | apiConnection
  | other (msg : String)
deriving DecidableEq, Repr

/-- Error handling of `query_knowledge` (`main.py:516`–`553`): OpenAI
errors get service-unavailable details (the `APIError` branch embeds the
message), Chroma/vector errors a fixed storage message, and any other
unexpected error a fixed generic message. -/
def query_error_detail : QueryException → HTTPError
  | .apiError msg =>
      ⟨503, "AI service is currently unavailable. Please try again later. Error: " ++ msg⟩
  | .rateLimit =>
      ⟨429, "AI service rate limit exceeded. Please try again in a few moments."⟩
  | .apiConnection =>
      ⟨503, "Unable to connect to AI service. Please check your internet connection and try again."⟩
  | .other msg =>
      if strHas (lowerStr msg) "chroma" || strHas (lowerStr msg) "vector" then
        ⟨503, "Vector database is temporarily unavailable. Please try again later."⟩
      else
        ⟨500, "An internal server error occurred while processing your query. Please try again later."⟩

/-- Error handling of the `except Exception` branch of `sync_slack`
(`main.py:381`–`383`): HTTP 500 with the exception's message embedded. -/
def slack_error_detail (msg : String) : HTTPError :=
  ⟨500, "Slack sync failed: " ++ msg⟩

/-- Error handling of the `except Exception` branch of `sync_github`
(`main.py:443`–`445`): HTTP 500 whose detail is exactly `str(e)`. -/
def github_error_detail (msg : String) : HTTPError :=
  ⟨500, msg⟩

/-- Response body of `POST /api/upload` (`UploadResponse`, `main.py:107`):
a single human-readable message. -/
structure UploadResponse where
  message : String
deriving DecidableEq, Repr

/-- Field names of the `UploadResponse` pydantic model (`main.py:107`):
the response carries only `message`. -/
def uploadResponseFields : List String := ["message"]

/-- Response body of the sync/cancel endpoints (`SyncResponse`,
`main.py:104`). -/
structure SyncResponse where
  message : String
deriving DecidableEq, Repr

/-- Remove a path from the file system (Python `Path.unlink`). -/
def fsErase : List (String × String) → String → List (String × String)
  | [], _ => []
  | e :: rest, p => if e.1 = p then fsErase rest p else e :: fsErase rest p

/-- Write file contents at a path, overwriting any existing file (Python
`open(path, "wb")` followed by a full copy). -/
def fsWrite (fs : List (String × String)) (p v : String) : List (String × String) :=
  (p, v) :: fsErase fs p

/-- Read file contents at a path. -/
def fsRead (fs : List (String × String)) (p : String) : Option String :=
  (fs.find? (fun e => e.1 == p)).map (fun e => e.2)

/-- Path of the temporary upload copy, `TEMP_UPLOADS_DIR / file.filename`
(`main.py:146`). -/
def tempPath (name : String) : String := "temp_uploads/" ++ name

/-- Path of the persistent copy, `DATA_DIR / file.filename`
(`main.py:153`). -/
def dataPath (name : String) : String := "data/" ++ name

/-- Mutable state touched by the upload handler: the server's file system
and the shared vector collection. -/
structure UploadState where
  fs : List (String × String)
  index : List Record
deriving DecidableEq, Repr

/-- Outcome of an upload request: a 200 response or a raised
`HTTPException`. -/
inductive UploadOutcome where
  | ok (resp : UploadResponse)
  | err (e : HTTPError)
deriving DecidableEq, Repr

/-- Metadata tagging of `upload_document` (`main.py:169`–`174`): every
loaded document gets `source`, `filename` and `contextId` metadata. -/
def tagUploadDocs (filename contextId : String) (docs : List Doc) : List Doc :=
  docs.map (fun d =>
    let upds := [("source", some "file_upload"), ("filename", some filename),
      ("contextId", some contextId)]
    { d with metadata := metaUpdate d.metadata upds })

/-- Handler of `POST /api/upload` (`upload_document`, `main.py:133`–`240`).
External collaborators are parameters: `reader` is
`SimpleDirectoryReader.load_data` applied to the written file's contents
(`main.py:162`), and `build` is `VectorStoreIndex.from_documents`
(`main.py:178`), returning either the records it chunked, embedded and
wrote, or the message of the exception it raised.  Steps: reject an empty
filename; write the temporary copy and the persistent copy under the
original filename; load; reject an empty load; tag with metadata; build
the index; delete the temporary copy; answer with the success message.  On
a build exception the temporary copy is also deleted (`main.py:212`) and
the classified error is raised. -/
def upload_document (reader : String → List Doc)
    (build : List Doc → Except String (List Record)) (st : UploadState)
    (filename content contextId : String) : UploadState × UploadOutcome :=
  if filename == "" then
    (st, .err ⟨400, "No file provided"⟩)
  else
    let fs2 := fsWrite (fsWrite st.fs (tempPath filename) content) (dataPath filename) content
    let docs := reader content
    if docs.isEmpty then
      ({ st with fs := fs2 }, .err ⟨400, "Failed to load document content"⟩)
    else
      match build (tagUploadDocs filename contextId docs) with
      | .ok recs =>
          (⟨fsErase fs2 (tempPath filename), st.index ++ recs⟩,
           .ok ⟨"Successfully uploaded and processed " ++ filename⟩)
      | .error e =>
          (⟨fsErase fs2 (tempPath filename), st.index⟩,
           .err (upload_error_detail e))

/-- Channel-id parsing of `sync_slack` (`main.py:271`): split the form
field on commas, strip whitespace, drop empties. -/
def parseChannelList (s : String) : List String :=
  (((splitChars ',' s.toList).map (fun cs => trimStr (String.mk cs)))).filter
    (fun c => !(c == ""))

/-- JSON rendering of the channel list (`json.dumps(channel_list)`,
`main.py:321`). -/
def jsonListString (xs : List String) : String :=
  "[" ++ joinWith ", " (xs.map (fun s => "\"" ++ s ++ "\"")) ++ "]"

/-- Outcome of `POST /api/sync/slack`: a raised validation error, the
warning response for an empty reader result (`main.py:343`–`354`), or the
success response (`main.py:370`–`376`).  Only the fields the claims speak
about (`message`, `syncedCount`) are modelled. -/
inductive SlackSyncResponse where
  | validationError (status : Nat) (detail : String)
  | warning (message : String) (syncedCount : Nat)
  | success (message : String) (syncedCount : Nat)
deriving DecidableEq, Repr

/-- Metadata tagging of `sync_slack` (`main.py:323`–`328`): every document
gets `source`, `synced_from_channels` and `contextId` metadata; the
`contextId` value is the form field, which may be Python `None`. -/
def tagSlackDocs (channels : List String) (ctx : Option String)
    (docs : List Doc) : List Doc :=
  docs.map (fun d =>
    let upds := [("source", some "slack"),
      ("synced_from_channels", some (jsonListString channels)),
      ("contextId", ctx)]
    { d with metadata := metaUpdate d.metadata upds })

/-- Insertion loop over the shared index (`for doc in slack_documents:
index.insert(doc)`, `main.py:365`–`366`): each document becomes a record
appended to the collection, with fresh ids. -/
def insertDocs (index : List Record) (docs : List Doc) : List Record :=
  index ++ docs.enum.map (fun p => Record.mk (index.length + p.1) p.2.text p.2.metadata)

/-- Handler of `POST /api/sync/slack` (`sync_slack`, `main.py:244`–`383`).
Form fields mirror the handler's signature: `channel_ids` is required,
`contextId` and `token` default to `None` (`Form(None)`).  `envToken` is
`settings.SLACK_BOT_TOKEN`; `readDocs` is the output of
`SlackReader.load_data` (`main.py:300`).  Validation: non-blank
`channel_ids`, a non-empty parsed channel list, and a token from the form
or the environment; the handler never validates `contextId`.  An empty
reader result returns the warning response without touching the index;
otherwise all documents are tagged and inserted. -/
def sync_slack (envToken : Option String) (readDocs : List Doc)
    (index : List Record) (channel_ids : String) (contextId : Option String)
    (token : Option String) : List Record × SlackSyncResponse :=
  if trimStr channel_ids == "" then
    (index, .validationError 422 "Please provide at least one Slack channel ID")
  else
    let channelList := parseChannelList channel_ids
    if channelList.isEmpty then
      (index, .validationError 422 "Please provide valid Slack channel IDs")
    else
      match token.orElse (fun _ => envToken) with
      | none => (index, .validationError 422 "Slack token is required for syncing")
      | some _ =>
          if readDocs.isEmpty then
            (index,
             .warning "Sync completed, but 0 messages were found. Ensure the bot is in the channel and the channel is not empty." 0)
          else
            (insertDocs index (tagSlackDocs channelList contextId readDocs),
             .success ("Successfully synced " ++ toString readDocs.length ++
               " documents from Slack channels: " ++ joinWith ", " channelList)
               readDocs.length)

/-- Handler of `POST /api/sync/cancel` (`cancel_sync`, `main.py:447`–`458`).
The handler consults no job registry and sets no cancellation flag; it
logs and returns a fixed success message.  The running-job state is made
explicit to record that the handler leaves it untouched. -/
def cancel_sync (runningJobs : List String) : List String × SyncResponse :=
  (runningJobs, ⟨"Sync operations cancelled successfully"⟩)

theorem fsRead_cons_ne {e : String × String} {l : List (String × String)}
    {p : String} (h : (e.1 == p) = false) : fsRead (e :: l) p = fsRead l p := by
  simp [fsRead, List.find?_cons_of_neg, h]

theorem fsRead_cons_eq {e : String × String} {l : List (String × String)}
    {p : String} (h : (e.1 == p) = true) : fsRead (e :: l) p = some e.2 := by
  simp [fsRead, List.find?_cons_of_pos, h]

theorem fsRead_fsWrite_self (fs : List (String × String)) (p v : String) :
    fsRead (fsWrite fs p v) p = some v := by
  simpa [fsWrite] using fsRead_cons_eq (e := (p, v)) (l := fsErase fs p) (by simp)

theorem fsRead_fsErase_self (fs : List (String × String)) (p : String) :
    fsRead (fsErase fs p) p = none := by
  induction fs with
  | nil => rfl
  | cons e rest ih =>
      by_cases h : e.1 = p
      · simpa [fsErase, h] using ih
      · have hb : (e.1 == p) = false := by simp [h]
        rw [show fsErase (e :: rest) p = e :: fsErase rest p from by simp [fsErase, h]]
        rw [fsRead_cons_ne hb]
        exact ih

theorem fsRead_fsErase_ne (fs : List (String × String)) {q p : String}
    (hqp : q ≠ p) : fsRead (fsErase fs q) p = fsRead fs p := by
  induction fs with
  | nil => rfl
  | cons e rest ih =>
      by_cases h : e.1 = q
      · have hb : (e.1 == p) = false := by simp [h]; exact hqp
        rw [show fsErase (e :: rest) q = fsErase rest q from by simp [fsErase, h]]
        rw [ih, fsRead_cons_ne hb]
      · rw [show fsErase (e :: rest) q = e :: fsErase rest q from by simp [fsErase, h]]
        by_cases hp : (e.1 == p) = true
        · rw [fsRead_cons_eq hp, fsRead_cons_eq hp]
        · have hb : (e.1 == p) = false := by simpa using hp
          rw [fsRead_cons_ne hb, fsRead_cons_ne hb, ih]

theorem tempPath_ne_dataPath (f : String) : tempPath f ≠ dataPath f := by
  intro h
  have hl := congrArg String.length h
  rw [tempPath, dataPath, String.length_append, String.length_append] at hl
  have h1 : ("temp_uploads/" : String).length = 13 := by decide
  have h2 : ("data/" : String).length = 5 := by decide
  omega

/-- C1: every source record in the response of a query carrying
`contextId = X` has metadata `contextId` equal to `X`, whatever the store
contains (so records stored under any other context, or written at any
point by other contexts, never appear). -/
theorem query_scoped_sources_match_context
    (score : String → Record → Int) (complete : String → String)
    (store : List Record) (topK : Nat) (req : QueryRequest) (s : SourceEntry)
    (hs : s ∈ (query_knowledge score complete store topK req).1.sources) :
    metaGet s.metadata "contextId" = some (some req.contextId) := by
  simp only [query_knowledge] at hs
  obtain ⟨r, hr, hmap⟩ := List.mem_map.mp hs
  have hmatch : matchesWhere [("contextId", req.contextId)] r = true :=
    (mem_searchDocuments (by simpa [retrieveNodes] using hr)).2
  have hget : metaGet r.metadata "contextId" = some (some req.contextId) := by
    simpa [matchesWhere] using hmatch
  rw [← hmap]
  simpa using hget

/-- Witness for C1 at a concrete two-context store. -/
theorem query_scoped_sources_match_context_witness :
    metaGet (⟨1, "apples", [("contextId", some "project-a")]⟩ : SourceEntry).metadata
        "contextId" = some (some "project-a") :=
  query_scoped_sources_match_context (fun _ _ => 0) (fun _ => "ans")
    [⟨1, "apples", [("contextId", some "project-a")]⟩,
     ⟨2, "bananas", [("contextId", some "project-b")]⟩]
    5 ⟨"fruit", "project-a"⟩ ⟨1, "apples", [("contextId", some "project-a")]⟩
    (by decide)

/-- C3: when retrieval returns zero records, the query pipeline returns
the fixed insufficient-information answer with an empty source list and
issues no completion call, for any completion capability. -/
theorem empty_retrieval_short_circuits
    (score : String → Record → Int) (complete : String → String)
    (store : List Record) (topK : Nat) (req : QueryRequest)
    (h : retrieveNodes score store topK req = []) :
    query_knowledge score complete store topK req =
      (⟨insufficientInfoAnswer, []⟩, 0) := by
  simp [query_knowledge, h, synthesize]

/-- Witness for C3 at an empty store. -/
theorem empty_retrieval_short_circuits_witness :
    query_knowledge (fun _ _ => 0) (fun _ => "fabricated") [] 5 ⟨"q", "ctx"⟩ =
      (⟨insufficientInfoAnswer, []⟩, 0) :=
  empty_retrieval_short_circuits (fun _ _ => 0) (fun _ => "fabricated") [] 5
    ⟨"q", "ctx"⟩ (by decide)

/-- C7: when the query-rewriting completion call fails, the endpoint
raises HTTP 500 carrying the rewriter's error, and the modelled caller
falls back to the original question text, so the overall query proceeds
exactly as it would with the original question. -/
theorem rewrite_failure_falls_back
    (llm : String → Except String String) (req : TransformRequest) (e : String)
    (score : String → Record → Int) (complete : String → String)
    (store : List Record) (topK : Nat)
    (h : llm req.question = .error e) :
    transform_query llm req = .error ⟨500, "Failed to transform query: " ++ e⟩ ∧
    queryTextAfterRewrite llm req = req.question ∧
    query_knowledge score complete store topK
        ⟨queryTextAfterRewrite llm req, req.contextId⟩ =
      query_knowledge score complete store topK ⟨req.question, req.contextId⟩ := by
  refine ⟨?_, ?_, ?_⟩ <;> simp [transform_query, queryTextAfterRewrite, h]

/-- Witness for C7 with a rewriter that fails with a rate-limit error. -/
theorem rewrite_failure_falls_back_witness :
    transform_query (fun _ => .error "rate limited") ⟨"q", "ctx"⟩ =
        .error ⟨500, "Failed to transform query: " ++ "rate limited"⟩ ∧
    queryTextAfterRewrite (fun _ => .error "rate limited") ⟨"q", "ctx"⟩ = "q" ∧
    query_knowledge (fun _ _ => 0) (fun _ => "ans") [] 5
        ⟨queryTextAfterRewrite (fun _ => .error "rate limited") ⟨"q", "ctx"⟩, "ctx"⟩ =
      query_knowledge (fun _ _ => 0) (fun _ => "ans") [] 5 ⟨"q", "ctx"⟩ :=
  rewrite_failure_falls_back (fun _ => .error "rate limited") ⟨"q", "ctx"⟩
    "rate limited" (fun _ _ => 0) (fun _ => "ans") [] 5 rfl

/-- C8: the chunker is deterministic: identical
`(text, maxTokens, overlapTokens)` arguments yield identical chunk
sequences; in this embedding `split` reads no state besides its three
arguments. -/
theorem split_deterministic (t1 t2 : String) (m1 m2 o1 o2 : Nat)
    (ht : t1 = t2) (hm : m1 = m2) (ho : o1 = o2) :
    split t1 m1 o1 = split t2 m2 o2 := by
  rw [ht, hm, ho]

/-- Witness for C8: two identical calls agree, on an input where the
window structure is visible. -/
theorem split_deterministic_witness :
    split "a b c" 2 1 = split "a b c" 2 1 ∧ split "a b c" 2 1 = ["a b", "b c"] :=
  ⟨split_deterministic "a b c" "a b c" 2 2 1 1 rfl rfl rfl, by decide⟩

/-- C2: the Slack sync endpoint accepts a request with no `contextId`
(`contextId: str = Form(None)`, `main.py:247`): validation passes, the
reader's documents are processed, and a record tagged with `contextId`
`None` is written to the index — the missing `contextId` is neither
rejected before pipeline work nor replaced by anything else. -/
theorem sync_slack_accepts_missing_contextId :
    sync_slack (some "env-token") [⟨"hello from slack", []⟩] [] "C123" none none =
      ([⟨0, "hello from slack",
          [("contextId", none), ("synced_from_channels", some "[\"C123\"]"),
           ("source", some "slack")]⟩],
       .success "Successfully synced 1 documents from Slack channels: C123" 1) := by
  decide

/-- C4 counterexample: the generic branch of the upload handler embeds the
internal exception's text in the HTTP detail, the Slack sync handler
appends it after a fixed label, and the GitHub sync handler returns it
verbatim. -/
theorem internal_error_text_reaches_caller :
    (upload_error_detail "boom").detail = "Failed to process file upload. Error: boom" ∧
    strHas (upload_error_detail "boom").detail "boom" = true ∧
    (slack_error_detail "boom").detail = "Slack sync failed: boom" ∧
    (github_error_detail "boom").detail = "boom" := by
  decide

/-- C4 (amended): for an unexpected internal error whose message matches
none of the substring classifiers, the query endpoint answers with a fixed
generic detail, while the upload, Slack sync and GitHub sync endpoints
embed the exception's text in the detail they return. -/
theorem unexpected_error_details_by_endpoint (msg : String)
    (hOpen : strHas msg "OpenAI" = false) (hApi : strHas msg "API" = false)
    (hChroma : strHas msg "ChromaDB" = false)
    (hChromaL : strHas (lowerStr msg) "chroma" = false)
    (hVec : strHas (lowerStr msg) "vector" = false)
    (hEmb : strHas (lowerStr msg) "embedding" = false) :
    (query_error_detail (.other msg)).detail =
      "An internal server error occurred while processing your query. Please try again later." ∧
    (upload_error_detail msg).detail = "Failed to process file upload. Error: " ++ msg ∧
    (slack_error_detail msg).detail = "Slack sync failed: " ++ msg ∧
    (github_error_detail msg).detail = msg := by
  simp [query_error_detail, upload_error_detail, slack_error_detail,
    github_error_detail, hOpen, hApi, hChroma, hChromaL, hVec, hEmb]

/-- Witness for the amended C4 at the message "boom". -/
theorem unexpected_error_details_by_endpoint_witness :
    (query_error_detail (.other "boom")).detail =
      "An internal server error occurred while processing your query. Please try again later." ∧
    (upload_error_detail "boom").detail = "Failed to process file upload. Error: " ++ "boom" ∧
    (slack_error_detail "boom").detail = "Slack sync failed: " ++ "boom" ∧
    (github_error_detail "boom").detail = "boom" :=
  unexpected_error_details_by_endpoint "boom" (by decide) (by decide) (by decide)
    (by decide) (by decide) (by decide)

/-- C5 counterexample: the upload response model carries a single
`message` field; none of `accepted`, `chunksWritten`, `chunksFailed`
exists in the response. -/
theorem uploadResponse_reports_no_chunk_counts :
    uploadResponseFields = ["message"] ∧
    uploadResponseFields.contains "accepted" = false ∧
    uploadResponseFields.contains "chunksWritten" = false ∧
    uploadResponseFields.contains "chunksFailed" = false := by
  decide

/-- C5 (amended): the upload response reports only a human-readable
message; on success it is the fixed success message, and when the
all-or-nothing index build fails, the whole upload is answered with an
error and no records are written — there is no per-chunk partial
outcome. -/
theorem upload_reports_single_message
    (reader : String → List Doc) (build : List Doc → Except String (List Record))
    (st : UploadState) (filename content contextId : String)
    (hname : (filename == "") = false)
    (hdocs : (reader content).isEmpty = false) :
    (∀ recs, build (tagUploadDocs filename contextId (reader content)) = .ok recs →
      (upload_document reader build st filename content contextId).2 =
        .ok ⟨"Successfully uploaded and processed " ++ filename⟩) ∧
    (∀ e, build (tagUploadDocs filename contextId (reader content)) = .error e →
      (upload_document reader build st filename content contextId).2 =
          .err (upload_error_detail e) ∧
      (upload_document reader build st filename content contextId).1.index =
          st.index) := by
  constructor
  · intro recs hb
    simp [upload_document, hname, hdocs, hb]
  · intro e hb
    constructor <;> simp [upload_document, hname, hdocs, hb]

/-- Witness for the amended C5 on a one-document upload whose build
succeeds. -/
theorem upload_reports_single_message_witness :
    (upload_document (fun c => [⟨c, []⟩]) (fun _ => .ok []) ⟨[], []⟩
        "f.txt" "hello" "ctx").2 =
      .ok ⟨"Successfully uploaded and processed " ++ "f.txt"⟩ :=
  (upload_reports_single_message (fun c => [⟨c, []⟩]) (fun _ => .ok [])
    ⟨[], []⟩ "f.txt" "hello" "ctx" (by decide) (by decide)).1 [] rfl

/-- C6: the cancellation endpoint is a stub: it reports success while
leaving the running-job state untouched, so a cancellation request has no
effect on what a sync job writes. -/
theorem cancel_sync_is_stub :
    cancel_sync ["slack-sync-job"] =
      (["slack-sync-job"], ⟨"Sync operations cancelled successfully"⟩) := by
  decide

/-- C9: a successful upload leaves a copy of the uploaded bytes in the
persistent data directory under the original filename — whatever the data
directory held under that name before, so a repeated filename overwrites —
and the temporary upload copy is gone when the response is produced. -/
theorem upload_persists_file_and_cleans_temp
    (reader : String → List Doc) (build : List Doc → Except String (List Record))
    (st : UploadState) (filename content contextId : String) (recs : List Record)
    (hname : (filename == "") = false)
    (hdocs : (reader content).isEmpty = false)
    (hbuild : build (tagUploadDocs filename contextId (reader content)) = .ok recs) :
    fsRead (upload_document reader build st filename content contextId).1.fs
        (dataPath filename) = some content ∧
    fsRead (upload_document reader build st filename content contextId).1.fs
        (tempPath filename) = none ∧
    (upload_document reader build st filename content contextId).2 =
      .ok ⟨"Successfully uploaded and processed " ++ filename⟩ := by
  have hfs : (upload_document reader build st filename content contextId).1.fs =
      fsErase (fsWrite (fsWrite st.fs (tempPath filename) content)
        (dataPath filename) content) (tempPath filename) := by
    simp [upload_document, hname, hdocs, hbuild]
  refine ⟨?_, ?_, ?_⟩
  · rw [hfs, fsRead_fsErase_ne _ (tempPath_ne_dataPath filename),
      fsRead_fsWrite_self]
  · rw [hfs, fsRead_fsErase_self]
  · simp [upload_document, hname, hdocs, hbuild]

/-- Witness for C9: the data directory already holds an older file under
the same name, and the upload overwrites it while removing the temporary
copy. -/
theorem upload_persists_file_and_cleans_temp_witness :
    fsRead (upload_document (fun c => [⟨c, []⟩]) (fun _ => .ok [])
        ⟨[(dataPath "f.txt", "old bytes")], []⟩ "f.txt" "new bytes" "ctx").1.fs
      (dataPath "f.txt") = some "new bytes" ∧
    fsRead (upload_document (fun c => [⟨c, []⟩]) (fun _ => .ok [])
        ⟨[(dataPath "f.txt", "old bytes")], []⟩ "f.txt" "new bytes" "ctx").1.fs
      (tempPath "f.txt") = none ∧
    (upload_document (fun c => [⟨c, []⟩]) (fun _ => .ok [])
        ⟨[(dataPath "f.txt", "old bytes")], []⟩ "f.txt" "new bytes" "ctx").2 =
      .ok ⟨"Successfully uploaded and processed " ++ "f.txt"⟩ :=
  upload_persists_file_and_cleans_temp (fun c => [⟨c, []⟩]) (fun _ => .ok [])
    ⟨[(dataPath "f.txt", "old bytes")], []⟩ "f.txt" "new bytes" "ctx" []
    (by decide) (by decide) rfl

/-- C10: when the Slack reader returns zero documents and the request
passes validation, the sync answers with the warning response carrying
`syncedCount = 0` and the index is returned unchanged — no insertion
happens. -/
theorem sync_slack_empty_reader_warning
    (envToken : Option String) (index : List Record) (channel_ids : String)
    (contextId token : Option String)
    (h1 : (trimStr channel_ids == "") = false)
    (h2 : (parseChannelList channel_ids).isEmpty = false)
    (h3 : (token.orElse fun _ => envToken).isSome = true) :
    sync_slack envToken [] index channel_ids contextId token =
      (index,
       .warning "Sync completed, but 0 messages were found. Ensure the bot is in the channel and the channel is not empty." 0) := by
  obtain ⟨t, ht⟩ := Option.isSome_iff_exists.mp h3
  simp [sync_slack, h1, h2, ht]

/-- Witness for C10 with one channel, a form token and a non-empty
index. -/
theorem sync_slack_empty_reader_warning_witness :
    sync_slack none [] [⟨7, "kept", []⟩] "C1" (some "ctx") (some "tok") =
      ([⟨7, "kept", []⟩],
       .warning "Sync completed, but 0 messages were found. Ensure the bot is in the channel and the channel is not empty." 0) :=
  sync_slack_empty_reader_warning none [⟨7, "kept", []⟩] "C1" (some "ctx")
    (some "tok") (by decide) (by decide) (by decide)

end Synapse
